import Mathlib

/-!
Verification development for `script.js` of the `simple` repository: a
client-side enhancement script with theme toggling, scroll reveals, a
decorative cursor, and a contact form with validation and a mailto
fallback.  Each section embeds one component of the script as executable
Lean definitions and proves the specified properties about them.
-/

/-! ## JavaScript string primitives -/

/-- The character class matched by the JavaScript `\s` regex escape and
removed by `String.prototype.trim`. -/
def jsWhitespace (c : Char) : Bool :=
  c ∈ [' ', '\t', '\n', '\r', '\u000B', '\u000C',
       '\u00A0', '\u1680',
       '\u2000', '\u2001', '\u2002', '\u2003', '\u2004',
       '\u2005', '\u2006', '\u2007', '\u2008', '\u2009', '\u200A',
       '\u2028', '\u2029', '\u202F', '\u205F', '\u3000', '\uFEFF']

/-- JavaScript `String.prototype.trim`: drop leading and trailing
whitespace. -/
def jsTrim (s : String) : String :=
  String.mk (((s.data.dropWhile jsWhitespace).reverse.dropWhile jsWhitespace).reverse)

/-- Characters left unescaped by JavaScript `encodeURIComponent`:
alphanumerics and `-_.!~*'()`. -/
def unreservedChar (c : Char) : Bool :=
  c.isAlphanum || c ∈ ['-', '_', '.', '!', '~', '*', Char.ofNat 39, '(', ')']

/-- Upper-case hexadecimal digit for `n < 16`. -/
def hexDigitChar (n : Nat) : Char :=
  if n < 10 then Char.ofNat (48 + n) else Char.ofNat (55 + n)

/-- `%`-escape of a single byte. -/
def byteEscape (b : Nat) : List Char :=
  ['%', hexDigitChar (b / 16), hexDigitChar (b % 16)]

/-- UTF-8 bytes of a Unicode scalar value. -/
def utf8Bytes (n : Nat) : List Nat :=
  if n < 128 then [n]
  else if n < 2048 then [192 + n / 64, 128 + n % 64]
  else if n < 65536 then [224 + n / 4096, 128 + (n / 64) % 64, 128 + n % 64]
  else [240 + n / 262144, 128 + (n / 4096) % 64, 128 + (n / 64) % 64, 128 + n % 64]

/-- Encoding of one character under `encodeURIComponent`. -/
def encChar (c : Char) : List Char :=
  if unreservedChar c then [c]
  else (utf8Bytes c.toNat).foldr (fun b acc => byteEscape b ++ acc) []

/-- `encodeURIComponent` on a character list. -/
def encL (l : List Char) : List Char :=
  l.foldr (fun c acc => encChar c ++ acc) []

/-- JavaScript `encodeURIComponent`. -/
def encodeURIComponent (s : String) : String :=
  String.mk (encL s.data)

/-! ## Email regular expression

`script.js` line 190 tests the trimmed email against
`^[^\s@]+@[^\s@]+\.[^\s@]+$`. -/

/-- A character admitted by the `[^\s@]` class: not whitespace and not
`@`. -/
def emailChar (c : Char) : Bool :=
  !jsWhitespace c && c != '@'

/-- `dotNotLast l` holds when `l` contains a `.` that is not its last
character. -/
def dotNotLast : List Char → Bool
  | [] => false
  | [_] => false
  | c :: d :: rest => c == '.' || dotNotLast (d :: rest)

/-- `innerDot r` holds when `r` contains a `.` that is neither its
first nor its last character. -/
def innerDot : List Char → Bool
  | [] => false
  | _ :: t => dotNotLast t

/-- Executable matcher for the regex `^[^\s@]+@[^\s@]+\.[^\s@]+$` of
`script.js` line 190, on a character list: the part before the first `@`
is the `[^\s@]+` prefix, and the rest must be `@` followed by a suffix
of `[^\s@]` characters containing an inner `.`. -/
def emailOkL (cs : List Char) : Bool :=
  match cs.dropWhile (fun c => c != '@') with
  | [] => false
  | _ :: r =>
      !(cs.takeWhile (fun c => c != '@')).isEmpty &&
        (cs.takeWhile (fun c => c != '@')).all emailChar &&
        r.all emailChar && innerDot r

/-- Executable matcher for the regex `^[^\s@]+@[^\s@]+\.[^\s@]+$` of
`script.js` line 190. -/
def emailOk (s : String) : Bool :=
  emailOkL s.data

/-- The language of the regex `^[^\s@]+@[^\s@]+\.[^\s@]+$` as the spec
describes it: one or more non-whitespace-non-`@` characters, `@`, one or
more non-whitespace-non-`@` characters, `.`, one or more
non-whitespace-non-`@` characters. -/
def emailSpec (s : String) : Prop :=
  ∃ a b c : List Char,
    s.data = a ++ '@' :: (b ++ '.' :: c) ∧
    a ≠ [] ∧ b ≠ [] ∧ c ≠ [] ∧
    (∀ x ∈ a, emailChar x = true) ∧
    (∀ x ∈ b, emailChar x = true) ∧
    (∀ x ∈ c, emailChar x = true)

/-! ## Form validation and submission (`script.js` lines 178-217) -/

/-- The three text fields of the contact form. -/
inductive FormField
  | name
  | email
  | message
deriving DecidableEq, Repr

/-- Raw field values at the moment the submit event fires. -/
structure FormInput where
  name : String
  email : String
  message : String
deriving DecidableEq, Repr

/-- The deferred callback scheduled by `setTimeout` on acceptance: the
delay and the trimmed field values captured by the closure. -/
structure PendingSend where
  delayMs : Nat
  name : String
  email : String
  message : String
deriving DecidableEq, Repr

/-- Observable page state touched by the form handler: feedback text,
focused field, submit-button state, the scheduled deferred callback, and
the navigation target (`window.location.href`). -/
structure PageState where
  feedback : String
  focused : Option FormField
  submitDisabled : Bool
  submitLabel : String
  pending : Option PendingSend
  location : Option String
deriving DecidableEq, Repr

/-- Feedback for a too-short name (`script.js` line 186). -/
def nameErr : String := "Please enter your name (2+ characters)."

/-- Feedback for an invalid email (`script.js` line 191). -/
def emailErr : String := "Please enter a valid email address."

/-- Feedback for a too-short message (`script.js` line 196). -/
def messageErr : String := "Message is too short — tell us more about your project."

/-- In-progress submit-button label (`script.js` line 203). -/
def sendingLbl : String := "Sending..."

/-- Idle submit-button label restored by the callback (line 208). -/
def sendLbl : String := "Send message"

/-- Success feedback (`script.js` line 209). -/
def thanksMsg : String :=
  "Thanks — message prepared. Your email client will open so you can send it (or use your preferred workflow)."

/-- The validation cascade of `script.js` lines 185-199: first failure
wins, returning its feedback text and the field to focus. -/
def validate (inp : FormInput) : Option (String × FormField) :=
  if (jsTrim inp.name).length < 2 then some (nameErr, FormField.name)
  else if !emailOk (jsTrim inp.email) then some (emailErr, FormField.email)
  else if (jsTrim inp.message).length < 10 then some (messageErr, FormField.message)
  else none

/-- The `mailto:` link built in the deferred callback
(`script.js` lines 211-213). -/
def mailtoLink (n e m : String) : String :=
  "mailto:hello@aurora.example?subject=" ++
    encodeURIComponent ("Website inquiry from " ++ n) ++
  "&body=" ++
    encodeURIComponent ("Name: " ++ n ++ "\n" ++ "Email: " ++ e ++ "\n\n" ++ m)

/-- The synchronous part of the submit handler (`script.js` lines
178-217): clear feedback, validate; on rejection set the feedback text
and focus the failing field; on acceptance disable the submit button,
set the in-progress label, and schedule the 900 ms deferred callback. -/
def handleSubmit (inp : FormInput) (s : PageState) : PageState :=
  let s0 := { s with feedback := "" }
  match validate inp with
  | some (msg, fld) => { s0 with feedback := msg, focused := some fld }
  | none =>
      { s0 with
        submitDisabled := true
        submitLabel := sendingLbl
        pending := some ⟨900, jsTrim inp.name, jsTrim inp.email, jsTrim inp.message⟩ }

/-- The deferred callback body (`script.js` lines 206-216): re-enable
the submit button, restore its label, show the success feedback, and
navigate to the generated `mailto:` link. -/
def firePending (p : PendingSend) (s : PageState) : PageState :=
  { s with
    submitDisabled := false
    submitLabel := sendLbl
    feedback := thanksMsg
    pending := none
    location := some (mailtoLink p.name p.email p.message) }

/-! ## Reveal trigger (`script.js` lines 74-95 and 238-242) -/

/-- Per-element reveal state: whether the `revealed` class is present
and whether the element is still registered with the observer. -/
structure RevealElem where
  revealed : Bool
  observed : Bool
deriving DecidableEq, Repr

/-- The intersection threshold configured on the observer
(`script.js` line 83). -/
def revealThreshold : ℚ := 12 / 100

/-- One observer callback delivery for an element, carrying its visible
fraction.  The callback (`script.js` lines 76-83) marks the element
revealed and unobserves it when it is intersecting; an element no longer
observed receives no callback. -/
def revealStep (e : RevealElem) (frac : ℚ) : RevealElem :=
  if e.observed = true ∧ revealThreshold ≤ frac then
    { revealed := true, observed := false }
  else e

/-- A sequence of observer deliveries. -/
def revealRun (e : RevealElem) (evs : List ℚ) : RevealElem :=
  evs.foldl revealStep e

/-- The startup above-the-fold pass (`script.js` lines 238-242): mark
the element revealed when its top is within 90% of the viewport
height. -/
def startupCheck (top viewportH : ℚ) (e : RevealElem) : RevealElem :=
  if top < viewportH * (9 / 10) then { e with revealed := true } else e

/-- JavaScript `Math.round`: round half toward positive infinity. -/
def jsRound (q : ℚ) : ℤ := ⌊q + 1 / 2⌋

/-- The one-time stagger delay computed before observation begins
(`script.js` line 88): `Math.min(300, Math.max(0, Math.round(rect.top * 0.12)))`. -/
def staggerDelay (top : ℚ) : ℤ :=
  min 300 (max 0 (jsRound (top * (12 / 100))))

/-! ## Startup feature gating (`script.js` lines 74, 117-120, 126-170) -/

/-- Environment capabilities sampled at startup. -/
structure Env where
  prefersReduced : Bool
  isTouch : Bool
  hasCursor : Bool
deriving DecidableEq, Repr

/-- What the startup code registers, given the environment and the
number of tilt elements, interactive elements, and input fields.  The
reveal observer is created only without reduced motion (lines 75-95);
tilt attaches `mousemove` + `mouseleave` per element behind the guard of
line 118; the cursor block (line 126) attaches one document `mousemove`,
`pointerenter`/`pointerleave` per interactive element,
`focus`/`blur` per input, and one window `blur`; otherwise the cursor
overlay is hidden (line 169). -/
structure PageSetup where
  observerCreated : Bool
  allRevealedAtStartup : Bool
  tiltListenerCount : Nat
  cursorListenerCount : Nat
  cursorHidden : Bool
deriving DecidableEq, Repr

/-- The startup gating of `script.js`. -/
def setupPage (env : Env) (nTilt nInteractive nInputs : Nat) : PageSetup :=
  { observerCreated := !env.prefersReduced
    allRevealedAtStartup := env.prefersReduced
    tiltListenerCount :=
      if !env.prefersReduced && !env.isTouch then 2 * nTilt else 0
    cursorListenerCount :=
      if env.hasCursor && !env.isTouch && !env.prefersReduced then
        2 + 2 * nInteractive + 2 * nInputs
      else 0
    cursorHidden := env.hasCursor && (env.isTouch || env.prefersReduced) }

/-! ## Theme controller (`script.js` lines 21-34) -/

/-- Token set denoted by a `className` string: split on spaces, dropping
empty tokens. -/
def classesOfString (s : String) : Finset String :=
  ((s.splitOn " ").filter (fun t => t ≠ "")).toFinset

/-- `classList.toggle c`: remove `c` if present (returning `false`),
else add it (returning `true`). -/
def classListToggle (cls : Finset String) (c : String) : Finset String × Bool :=
  if c ∈ cls then (cls.erase c, false) else (insert c cls, true)

/-- Observable theme state: the body's class set, the toggle button's
`aria-pressed` flag and glyph, and the persisted `site-theme` value. -/
structure ThemeWorld where
  classes : Finset String
  ariaPressed : Bool
  glyph : String
  store : Option String

/-- The startup application of a persisted theme (`script.js` lines
21-26): overwrite `className` with the stored string, set
`aria-pressed`, set the glyph; nothing is written to storage. -/
def initStoredTheme (w : ThemeWorld) : ThemeWorld :=
  match w.store with
  | some t =>
      { w with
        classes := classesOfString t
        ariaPressed := t == "theme-dark"
        glyph := if t == "theme-dark" then "☀️" else "🌙" }
  | none => w

/-- The theme-toggle click handler (`script.js` lines 27-34):
`classList.toggle('theme-dark')`, then add or remove `theme-light`
according to the result, update `aria-pressed` and the glyph, and
persist the new mode. -/
def themeToggleClick (w : ThemeWorld) : ThemeWorld :=
  let p := classListToggle w.classes "theme-dark"
  { classes := if p.2 then p.1.erase "theme-light" else insert "theme-light" p.1
    ariaPressed := p.2
    glyph := if p.2 then "☀️" else "🌙"
    store := some (if p.2 then "theme-dark" else "theme-light") }

/-! ## Cursor ring pulse (`script.js` lines 156-167) -/

/-- Window focus events. -/
inductive WinEvent
  | blur
  | focus
deriving DecidableEq, Repr

/-- Pulse-timer state: the repeating interval's period when active, and
whether the window holds focus. -/
structure PulseWorld where
  pulseTimer : Option Nat
  focused : Bool
deriving DecidableEq, Repr

/-- Startup state: `startRingPulse()` has installed the 3200 ms interval
(`script.js` line 166). -/
def pulseInit : PulseWorld := ⟨some 3200, true⟩

/-- Event handling: the window `blur` handler clears the interval
(`script.js` line 167); no `focus` handler is registered, so refocusing
leaves the timer as it is. -/
def pulseStep (w : PulseWorld) (e : WinEvent) : PulseWorld :=
  match e with
  | WinEvent.blur => ⟨none, false⟩
  | WinEvent.focus => ⟨w.pulseTimer, true⟩

/-- A sequence of window focus events from startup. -/
def pulseRun (w : PulseWorld) (evs : List WinEvent) : PulseWorld :=
  evs.foldl pulseStep w

/-- Everything the spec promises for an accepted submission (`script.js`
lines 201-216): the submit button is disabled with the in-progress
label, with a 900 ms deferred callback scheduled and no navigation yet;
the fired callback re-enables the button, restores its label, shows the
success feedback, and navigates to the `mailto:` link, whose subject is
the percent-encoding of `Website inquiry from <trimmed name>` and whose
body contains the percent-encoded name, email, and message. -/
def acceptedOutcome (inp : FormInput) (s : PageState) : Prop :=
  (handleSubmit inp s).submitDisabled = true ∧
  (handleSubmit inp s).submitLabel = sendingLbl ∧
  (handleSubmit inp s).pending =
    some ⟨900, jsTrim inp.name, jsTrim inp.email, jsTrim inp.message⟩ ∧
  (handleSubmit inp s).location = s.location ∧
  (firePending ⟨900, jsTrim inp.name, jsTrim inp.email, jsTrim inp.message⟩
      (handleSubmit inp s)).submitDisabled = false ∧
  (firePending ⟨900, jsTrim inp.name, jsTrim inp.email, jsTrim inp.message⟩
      (handleSubmit inp s)).submitLabel = s.submitLabel ∧
  (firePending ⟨900, jsTrim inp.name, jsTrim inp.email, jsTrim inp.message⟩
      (handleSubmit inp s)).feedback = thanksMsg ∧
  (firePending ⟨900, jsTrim inp.name, jsTrim inp.email, jsTrim inp.message⟩
      (handleSubmit inp s)).location =
    some (mailtoLink (jsTrim inp.name) (jsTrim inp.email) (jsTrim inp.message)) ∧
  mailtoLink (jsTrim inp.name) (jsTrim inp.email) (jsTrim inp.message) =
    "mailto:hello@aurora.example?subject=" ++
      encodeURIComponent ("Website inquiry from " ++ jsTrim inp.name) ++
    "&body=" ++
      encodeURIComponent ("Name: " ++ jsTrim inp.name ++ "\n" ++ "Email: " ++
        jsTrim inp.email ++ "\n\n" ++ jsTrim inp.message) ∧
  (∃ l r : String,
    encodeURIComponent ("Name: " ++ jsTrim inp.name ++ "\n" ++ "Email: " ++
        jsTrim inp.email ++ "\n\n" ++ jsTrim inp.message) =
      l ++ encodeURIComponent (jsTrim inp.name) ++ r) ∧
  (∃ l r : String,
    encodeURIComponent ("Name: " ++ jsTrim inp.name ++ "\n" ++ "Email: " ++
        jsTrim inp.email ++ "\n\n" ++ jsTrim inp.message) =
      l ++ encodeURIComponent (jsTrim inp.email) ++ r) ∧
  (∃ l r : String,
    encodeURIComponent ("Name: " ++ jsTrim inp.name ++ "\n" ++ "Email: " ++
        jsTrim inp.email ++ "\n\n" ++ jsTrim inp.message) =
      l ++ encodeURIComponent (jsTrim inp.message) ++ r)

/-! ## Helper lemmas -/

theorem dotNotLast_iff (l : List Char) :
    dotNotLast l = true ↔ ∃ b c : List Char, l = b ++ '.' :: c ∧ c ≠ [] := by
  induction l with
  | nil =>
      simp only [dotNotLast]
      constructor
      · intro h; exact absurd h (by simp)
      · rintro ⟨b, c, heq, -⟩
        exact absurd heq.symm (by simp)
  | cons x xs ih =>
      cases xs with
      | nil =>
          simp only [dotNotLast]
          constructor
          · intro h; exact absurd h (by simp)
          · rintro ⟨b, c, heq, hc⟩
            cases b with
            | nil =>
                simp only [List.nil_append, List.cons.injEq] at heq
                exact absurd heq.2.symm hc
            | cons z b' =>
                simp only [List.cons_append, List.cons.injEq] at heq
                exact absurd heq.2.symm (by simp)
      | cons y ys =>
          simp only [dotNotLast, Bool.or_eq_true, beq_iff_eq, ih]
          constructor
          · rintro (rfl | ⟨b, c, heq, hc⟩)
            · exact ⟨[], y :: ys, rfl, by simp⟩
            · exact ⟨x :: b, c, by simp [heq], hc⟩
          · rintro ⟨b, c, heq, hc⟩
            cases b with
            | nil =>
                simp only [List.nil_append, List.cons.injEq] at heq
                exact Or.inl heq.1
            | cons z b' =>
                simp only [List.cons_append, List.cons.injEq] at heq
                exact Or.inr ⟨b', c, heq.2, hc⟩

theorem takeWhile_dropWhile_split (p : Char → Bool) (a : List Char) (x : Char)
    (l : List Char) (ha : ∀ y ∈ a, p y = true) (hx : p x = false) :
    (a ++ x :: l).takeWhile p = a ∧ (a ++ x :: l).dropWhile p = x :: l := by
  induction a with
  | nil => simp [List.takeWhile_cons, List.dropWhile_cons, hx]
  | cons z a' ih =>
      have hz : p z = true := ha z (by simp)
      have ih' := ih (fun y hy => ha y (by simp [hy]))
      simp [List.takeWhile_cons, List.dropWhile_cons, hz, ih'.1, ih'.2]

theorem dropWhile_head_false (p : Char → Bool) (l : List Char) (c : Char)
    (r : List Char) (h : l.dropWhile p = c :: r) : p c = false := by
  induction l with
  | nil => simp at h
  | cons x xs ih =>
      rw [List.dropWhile_cons] at h
      by_cases hx : p x = true
      · rw [if_pos hx] at h; exact ih h
      · rw [if_neg hx] at h
        cases h
        exact Bool.eq_false_iff.mpr hx

theorem email_ok_iff (s : String) : emailOk s = true ↔ emailSpec s := by
  rw [emailOk, emailSpec]
  constructor
  · intro h
    rw [emailOkL] at h
    rcases hdrop : s.data.dropWhile (fun c => c != '@') with _ | ⟨hd, r⟩
    · rw [hdrop] at h; exact absurd h (by simp)
    · rw [hdrop] at h
      simp only [Bool.and_eq_true, Bool.not_eq_true'] at h
      obtain ⟨⟨⟨hne, hall⟩, hrall⟩, hdot⟩ := h
      have hhd := dropWhile_head_false (fun c => c != '@') s.data hd r hdrop
      have hhd' : hd = '@' := by simpa using hhd
      have hsplit : s.data.takeWhile (fun c => c != '@') ++
          s.data.dropWhile (fun c => c != '@') = s.data :=
        List.takeWhile_append_dropWhile _ _
      rcases hr : r with _ | ⟨rh, t⟩
      · rw [hr] at hdot; exact absurd hdot (by simp [innerDot])
      · rw [hr] at hdot
        simp only [innerDot] at hdot
        rw [dotNotLast_iff] at hdot
        obtain ⟨b', c', ht, hc'⟩ := hdot
        refine ⟨s.data.takeWhile (fun c => c != '@'), rh :: b', c', ?_, ?_, by simp, hc', ?_, ?_, ?_⟩
        · conv_lhs => rw [← hsplit]
          rw [hdrop, hhd', hr, ht]
          simp
        · intro habs; rw [habs] at hne; simp at hne
        · intro x hx
          exact List.all_eq_true.mp hall x hx
        · intro x hx
          rcases List.mem_cons.mp hx with rfl | hx'
          · exact List.all_eq_true.mp hrall x (by simp [hr])
          · exact List.all_eq_true.mp hrall x (by simp [hr, ht, List.mem_append.mpr (Or.inl hx')])
        · intro x hx
          exact List.all_eq_true.mp hrall x (by simp [hr, ht, hx])
  · rintro ⟨a, b, c, heq, ha, hb, hc, maa, mab, mac⟩
    have hpa : ∀ y ∈ a, (fun ch => ch != '@') y = true := by
      intro y hy
      have := maa y hy
      rw [emailChar, Bool.and_eq_true] at this
      exact this.2
    have hpx : (fun ch => ch != '@') '@' = false := by simp
    have hsp := takeWhile_dropWhile_split _ a '@' (b ++ '.' :: c) hpa hpx
    rw [emailOkL, heq, hsp.2]
    rcases b with _ | ⟨bh, bt⟩
    · exact absurd rfl hb
    · simp only [Bool.and_eq_true]
      refine ⟨⟨⟨?_, ?_⟩, ?_⟩, ?_⟩
      · rw [hsp.1]
        simp only [Bool.not_eq_true']
        rcases a with _ | ⟨ah, at'⟩
        · exact absurd rfl ha
        · simp
      · rw [hsp.1]
        exact List.all_eq_true.mpr maa
      · refine List.all_eq_true.mpr ?_
        intro x hx
        rcases List.mem_cons.mp hx with rfl | hx'
        · exact mab x (by simp)
        · rcases List.mem_append.mp hx' with hx'' | hx''
          · exact mab x (by simp [hx''])
          · rcases List.mem_cons.mp hx'' with rfl | hx'''
            · decide
            · exact mac x hx'''
      · simp only [List.cons_append, innerDot]
        rw [dotNotLast_iff]
        exact ⟨bt, c, rfl, hc⟩

theorem encL_append (l1 l2 : List Char) :
    encL (l1 ++ l2) = encL l1 ++ encL l2 := by
  induction l1 with
  | nil => simp [encL]
  | cons x xs ih =>
      simp only [List.cons_append, encL, List.foldr_cons] at ih ⊢
      rw [ih, List.append_assoc]

theorem encodeURIComponent_append (a b : String) :
    encodeURIComponent (a ++ b) = encodeURIComponent a ++ encodeURIComponent b := by
  show String.mk (encL (a ++ b).data) = String.mk (encL a.data) ++ String.mk (encL b.data)
  rw [String.data_append, encL_append]
  rfl

theorem encodeURIComponent_infix_of_append (x y m : String) :
    ∃ l r : String,
      encodeURIComponent (x ++ m ++ y) = l ++ encodeURIComponent m ++ r := by
  exact ⟨encodeURIComponent x, encodeURIComponent y,
    by rw [encodeURIComponent_append, encodeURIComponent_append]⟩

theorem revealRun_cons (e : RevealElem) (q : ℚ) (qs : List ℚ) :
    revealRun e (q :: qs) = revealRun (revealStep e q) qs := rfl

theorem revealStep_keeps_revealed (e : RevealElem) (q : ℚ)
    (h : e.revealed = true) : (revealStep e q).revealed = true := by
  rw [revealStep]
  split
  · rfl
  · exact h

theorem revealRun_revealed_mono (e : RevealElem) (evs : List ℚ)
    (h : e.revealed = true) : (revealRun e evs).revealed = true := by
  induction evs generalizing e with
  | nil => exact h
  | cons q qs ih =>
      rw [revealRun_cons]
      exact ih _ (revealStep_keeps_revealed e q h)

theorem revealRun_inert (evs : List ℚ) :
    revealRun ⟨true, false⟩ evs = ⟨true, false⟩ := by
  induction evs with
  | nil => rfl
  | cons q qs ih =>
      rw [revealRun_cons]
      have hstep : revealStep ⟨true, false⟩ q = ⟨true, false⟩ := by
        rw [revealStep]
        simp
      rw [hstep]
      exact ih

theorem pulseRun_cons (w : PulseWorld) (e : WinEvent) (es : List WinEvent) :
    pulseRun w (e :: es) = pulseRun (pulseStep w e) es := rfl

theorem pulseRun_timer (w : PulseWorld) (evs : List WinEvent) :
    (pulseRun w evs).pulseTimer =
      if WinEvent.blur ∈ evs then none else w.pulseTimer := by
  induction evs generalizing w with
  | nil => simp [pulseRun]
  | cons e es ih =>
      cases e with
      | blur =>
          rw [pulseRun_cons]
          simp [pulseStep, ih]
      | focus =>
          rw [pulseRun_cons]
          simp only [pulseStep, ih]
          simp [List.mem_cons]

/-! ## Claim theorems -/

/-- C1: For every submission attempt, the three validation checks run in
the fixed order name, email, message, and the first failure wins: a
trimmed name shorter than 2 characters is rejected with the name
feedback and focus on the name field; otherwise a trimmed email outside
the language of `^[^\s@]+@[^\s@]+\.[^\s@]+$` is rejected with the email
feedback and focus on the email field; otherwise a trimmed message
shorter than 10 characters is rejected with the message feedback and
focus on the message field. -/
theorem validation_first_failure (inp : FormInput) (s : PageState) :
    ((jsTrim inp.name).length < 2 →
      handleSubmit inp s =
        { s with feedback := nameErr, focused := some FormField.name }) ∧
    (2 ≤ (jsTrim inp.name).length → ¬ emailSpec (jsTrim inp.email) →
      handleSubmit inp s =
        { s with feedback := emailErr, focused := some FormField.email }) ∧
    (2 ≤ (jsTrim inp.name).length → emailSpec (jsTrim inp.email) →
      (jsTrim inp.message).length < 10 →
      handleSubmit inp s =
        { s with feedback := messageErr, focused := some FormField.message }) := by
  refine ⟨?_, ?_, ?_⟩
  · intro h
    simp [handleSubmit, validate, h]
  · intro h1 h2
    have he : emailOk (jsTrim inp.email) = false :=
      Bool.eq_false_iff.mpr (fun hh => h2 ((email_ok_iff _).mp hh))
    simp [handleSubmit, validate, Nat.not_lt.mpr h1, he]
  · intro h1 h2 h3
    have he : emailOk (jsTrim inp.email) = true := (email_ok_iff _).mpr h2
    simp [handleSubmit, validate, Nat.not_lt.mpr h1, he, h3]

/-- Witness for C1: each of the three rejection branches evaluated at a
concrete input. -/
theorem validation_first_failure_witness :
    (handleSubmit ⟨"J", "a@b.c", "hello there"⟩
        ⟨"", none, false, "Send message", none, none⟩ =
      { feedback := nameErr, focused := some FormField.name,
        submitDisabled := false, submitLabel := "Send message",
        pending := none, location := none }) ∧
    (handleSubmit ⟨"Jane", "not-an-email", "hello there"⟩
        ⟨"", none, false, "Send message", none, none⟩ =
      { feedback := emailErr, focused := some FormField.email,
        submitDisabled := false, submitLabel := "Send message",
        pending := none, location := none }) ∧
    (handleSubmit ⟨"Jane", "a@b.c", "short"⟩
        ⟨"", none, false, "Send message", none, none⟩ =
      { feedback := messageErr, focused := some FormField.message,
        submitDisabled := false, submitLabel := "Send message",
        pending := none, location := none }) :=
  ⟨(validation_first_failure _ _).1 (by decide),
   (validation_first_failure _ _).2.1 (by decide)
     (fun hsp => absurd ((email_ok_iff _).mpr hsp) (by decide)),
   (validation_first_failure _ _).2.2 (by decide)
     ((email_ok_iff _).mp (by decide)) (by decide)⟩

/-- C3: A submission attempt rejected by validation changes only the
feedback text and the focused field: the submit control keeps its
disabled state and label, no deferred callback is scheduled, and no
navigation occurs. -/
theorem reject_frame (inp : FormInput) (s : PageState) (msg : String)
    (fld : FormField) (h : validate inp = some (msg, fld)) :
    (handleSubmit inp s).submitDisabled = s.submitDisabled ∧
    (handleSubmit inp s).submitLabel = s.submitLabel ∧
    (handleSubmit inp s).pending = s.pending ∧
    (handleSubmit inp s).location = s.location ∧
    (handleSubmit inp s).feedback = msg ∧
    (handleSubmit inp s).focused = some fld := by
  simp [handleSubmit, h]

/-- Witness for C3: a one-character name is rejected and every
submit-control field, the pending slot, and the location survive
unchanged. -/
theorem reject_frame_witness :
    (handleSubmit ⟨"J", "jane@example.com", "a long enough message"⟩
        ⟨"old feedback", some FormField.email, false, "Send message",
          none, none⟩).submitDisabled = false ∧
    (handleSubmit ⟨"J", "jane@example.com", "a long enough message"⟩
        ⟨"old feedback", some FormField.email, false, "Send message",
          none, none⟩).submitLabel = "Send message" ∧
    (handleSubmit ⟨"J", "jane@example.com", "a long enough message"⟩
        ⟨"old feedback", some FormField.email, false, "Send message",
          none, none⟩).pending = none ∧
    (handleSubmit ⟨"J", "jane@example.com", "a long enough message"⟩
        ⟨"old feedback", some FormField.email, false, "Send message",
          none, none⟩).location = none ∧
    (handleSubmit ⟨"J", "jane@example.com", "a long enough message"⟩
        ⟨"old feedback", some FormField.email, false, "Send message",
          none, none⟩).feedback = nameErr ∧
    (handleSubmit ⟨"J", "jane@example.com", "a long enough message"⟩
        ⟨"old feedback", some FormField.email, false, "Send message",
          none, none⟩).focused = some FormField.name :=
  reject_frame _ _ nameErr FormField.name (by decide)

/-- C4: A reveal candidate at or beyond 90% of the viewport height is
not marked revealed by the startup pass; the revealed flag is monotonic
over any sequence of observer deliveries; a delivery at or above the 12%
threshold to an observed element reveals it and removes it from
observation; and an element removed from observation is inert under
every further delivery. -/
theorem reveal_at_most_once (top vh frac : ℚ) (e : RevealElem)
    (evs evs2 : List ℚ) (hpos : vh * (9 / 10) ≤ top)
    (hfrac : revealThreshold ≤ frac) :
    startupCheck top vh ⟨false, true⟩ = ⟨false, true⟩ ∧
    (e.revealed = true → (revealRun e evs).revealed = true) ∧
    (e.observed = true → revealStep e frac = ⟨true, false⟩) ∧
    revealRun ⟨true, false⟩ evs2 = ⟨true, false⟩ := by
  refine ⟨?_, fun hr => revealRun_revealed_mono e evs hr,
    fun ho => ?_, revealRun_inert evs2⟩
  · rw [startupCheck, if_neg (not_lt.mpr hpos)]
  · rw [revealStep, if_pos ⟨ho, hfrac⟩]

/-- Witness for C4 at concrete positions: top 90 with viewport height
100, a fraction exactly at the threshold, and concrete delivery
sequences. -/
theorem reveal_at_most_once_witness :
    startupCheck 90 100 ⟨false, true⟩ = ⟨false, true⟩ ∧
    ((⟨false, true⟩ : RevealElem).revealed = true →
      (revealRun ⟨false, true⟩ [1]).revealed = true) ∧
    ((⟨false, true⟩ : RevealElem).observed = true →
      revealStep ⟨false, true⟩ (12 / 100) = ⟨true, false⟩) ∧
    revealRun ⟨true, false⟩ [1, 0] = ⟨true, false⟩ :=
  reveal_at_most_once 90 100 (12 / 100) ⟨false, true⟩ [1] [1, 0]
    (by norm_num) (by norm_num [revealThreshold])

/-- C5: Under a reduced-motion signal no reveal observer is created and
every reveal candidate is marked revealed at startup, no tilt listeners
are attached, the cursor follower attaches no listeners, and the cursor
overlay (when present) is hidden. -/
theorem reduced_motion_gating (env : Env) (nTilt nInteractive nInputs : Nat)
    (h : env.prefersReduced = true) :
    (setupPage env nTilt nInteractive nInputs).observerCreated = false ∧
    (setupPage env nTilt nInteractive nInputs).allRevealedAtStartup = true ∧
    (setupPage env nTilt nInteractive nInputs).tiltListenerCount = 0 ∧
    (setupPage env nTilt nInteractive nInputs).cursorListenerCount = 0 ∧
    (env.hasCursor = true →
      (setupPage env nTilt nInteractive nInputs).cursorHidden = true) := by
  simp [setupPage, h]

/-- Witness for C5 with a concrete reduced-motion environment and
element counts. -/
theorem reduced_motion_gating_witness :
    (setupPage ⟨true, false, true⟩ 3 7 2).observerCreated = false ∧
    (setupPage ⟨true, false, true⟩ 3 7 2).allRevealedAtStartup = true ∧
    (setupPage ⟨true, false, true⟩ 3 7 2).tiltListenerCount = 0 ∧
    (setupPage ⟨true, false, true⟩ 3 7 2).cursorListenerCount = 0 ∧
    ((⟨true, false, true⟩ : Env).hasCursor = true →
      (setupPage ⟨true, false, true⟩ 3 7 2).cursorHidden = true) :=
  reduced_motion_gating ⟨true, false, true⟩ 3 7 2 rfl

/-- C6: The one-time stagger delay for a candidate at distance `top`
from the viewport top is `min(300, max(0, round(top × 0.12)))`
milliseconds, with rounding half toward positive infinity as
`Math.round` does. -/
theorem stagger_delay_formula (top : ℚ) :
    staggerDelay top = min 300 (max 0 (round (top * (12 / 100)))) := by
  rw [staggerDelay, jsRound, round_eq]

/-- C2: Every submission whose trimmed fields pass validation disables
the submit control with the in-progress label, schedules the 900 ms
deferred callback without navigating yet, and the fired callback
re-enables the control, restores its label, shows the success feedback,
and navigates to the `mailto:` link whose subject percent-encodes
`Website inquiry from <trimmed name>` and whose body contains the
percent-encoded name, email, and message. -/
theorem accept_flow (inp : FormInput) (s : PageState)
    (hn : 2 ≤ (jsTrim inp.name).length)
    (he : emailSpec (jsTrim inp.email))
    (hm : 10 ≤ (jsTrim inp.message).length)
    (hl : s.submitLabel = sendLbl) :
    acceptedOutcome inp s := by
  have hok : emailOk (jsTrim inp.email) = true := (email_ok_iff _).mpr he
  have hv : validate inp = none := by
    simp [validate, Nat.not_lt.mpr hn, hok, Nat.not_lt.mpr hm]
  rw [acceptedOutcome]
  refine ⟨?_, ?_, ?_, ?_, ?_, ?_, ?_, ?_, rfl, ?_, ?_, ?_⟩
  · simp [handleSubmit, hv]
  · simp [handleSubmit, hv]
  · simp [handleSubmit, hv]
  · simp [handleSubmit, hv]
  · simp [firePending]
  · simp [firePending, hl]
  · simp [firePending]
  · simp [firePending]
  · exact ⟨encodeURIComponent "Name: ",
      encodeURIComponent ("\n" ++ "Email: " ++ jsTrim inp.email ++ "\n\n" ++
        jsTrim inp.message),
      by simp [encodeURIComponent_append, String.append_assoc]⟩
  · exact ⟨encodeURIComponent ("Name: " ++ jsTrim inp.name ++ "\n" ++ "Email: "),
      encodeURIComponent ("\n\n" ++ jsTrim inp.message),
      by simp [encodeURIComponent_append, String.append_assoc]⟩
  · exact ⟨encodeURIComponent ("Name: " ++ jsTrim inp.name ++ "\n" ++ "Email: " ++
        jsTrim inp.email ++ "\n\n"),
      "",
      by simp [encodeURIComponent_append, String.append_assoc,
        String.append_empty]⟩

/-- Witness for C2 at the spec's example input: Jane Doe's accepted
submission, together with the concrete percent-encoded subject
`Website%20inquiry%20from%20Jane%20Doe`. -/
theorem accept_flow_witness :
    acceptedOutcome
      ⟨"Jane Doe", "jane@example.com", "I would like a quote for a new site"⟩
      ⟨"", none, false, "Send message", none, none⟩ ∧
    encodeURIComponent ("Website inquiry from " ++ jsTrim "Jane Doe") =
      "Website%20inquiry%20from%20Jane%20Doe" :=
  ⟨accept_flow _ _ (by decide) ((email_ok_iff _).mp (by decide)) (by decide) rfl,
   by decide⟩

/-- C7 counterexample: from a starting state with no persisted value and
no theme class on the body, toggling twice does not return to the
original persisted value (it persists `theme-light`) nor to the original
class state (it adds `theme-light`). -/
theorem theme_toggle_twice_cex :
    ¬ ((themeToggleClick (themeToggleClick
          ⟨∅, false, "🌙", none⟩)).store =
        (⟨∅, false, "🌙", none⟩ : ThemeWorld).store ∧
       (themeToggleClick (themeToggleClick
          ⟨∅, false, "🌙", none⟩)).classes =
        (⟨∅, false, "🌙", none⟩ : ThemeWorld).classes) := by
  intro h
  have hs := h.1
  simp [themeToggleClick, classListToggle] at hs

/-- C7 amended: on every starting state whose persisted value agrees
with the body's theme class (stored `theme-dark` with the `theme-dark`
class and without `theme-light`, or symmetrically for `theme-light`),
toggling twice returns the body to its original persisted value and its
original class state. -/
theorem theme_toggle_twice_id (w : ThemeWorld)
    (h : (w.store = some "theme-dark" ∧ "theme-dark" ∈ w.classes ∧
            "theme-light" ∉ w.classes) ∨
         (w.store = some "theme-light" ∧ "theme-light" ∈ w.classes ∧
            "theme-dark" ∉ w.classes)) :
    (themeToggleClick (themeToggleClick w)).store = w.store ∧
    (themeToggleClick (themeToggleClick w)).classes = w.classes := by
  rcases h with ⟨hs, hd, hl⟩ | ⟨hs, hl, hd⟩
  · have h1 : themeToggleClick w =
        ⟨insert "theme-light" (w.classes.erase "theme-dark"), false, "🌙",
          some "theme-light"⟩ := by
      simp [themeToggleClick, classListToggle, hd]
    have hd2 : "theme-dark" ∉
        insert "theme-light" (w.classes.erase "theme-dark") := by
      simp
    have h2 : themeToggleClick
        ⟨insert "theme-light" (w.classes.erase "theme-dark"), false, "🌙",
          some "theme-light"⟩ =
        ⟨(insert "theme-dark"
            (insert "theme-light" (w.classes.erase "theme-dark"))).erase
          "theme-light", true, "☀️", some "theme-dark"⟩ := by
      simp [themeToggleClick, classListToggle, hd2]
    rw [h1, h2]
    refine ⟨hs.symm, ?_⟩
    have hne : ("theme-dark" : String) ≠ "theme-light" := by decide
    rw [Finset.erase_insert_of_ne hne,
      Finset.erase_insert (by simp [hl]),
      Finset.insert_erase hd]
  · have h1 : themeToggleClick w =
        ⟨(insert "theme-dark" w.classes).erase "theme-light", true, "☀️",
          some "theme-dark"⟩ := by
      simp [themeToggleClick, classListToggle, hd]
    have hd2 : "theme-dark" ∈ (insert "theme-dark" w.classes).erase
        "theme-light" := by
      simp
    have h2 : themeToggleClick
        ⟨(insert "theme-dark" w.classes).erase "theme-light", true, "☀️",
          some "theme-dark"⟩ =
        ⟨insert "theme-light"
            (((insert "theme-dark" w.classes).erase "theme-light").erase
              "theme-dark"), false, "🌙", some "theme-light"⟩ := by
      simp [themeToggleClick, classListToggle, hd2]
    rw [h1, h2]
    refine ⟨hs.symm, ?_⟩
    have hne : ("theme-dark" : String) ≠ "theme-light" := by decide
    rw [Finset.erase_insert_of_ne hne, Finset.erase_insert (by simp [hd]),
      Finset.insert_erase hl]

/-- Witness for the amended C7: a consistent light-mode state with an
unrelated class returns to itself after two toggles. -/
theorem theme_toggle_twice_id_witness :
    (themeToggleClick (themeToggleClick
        ⟨{"theme-light", "hero"}, false, "🌙", some "theme-light"⟩)).store =
      (⟨{"theme-light", "hero"}, false, "🌙",
        some "theme-light"⟩ : ThemeWorld).store ∧
    (themeToggleClick (themeToggleClick
        ⟨{"theme-light", "hero"}, false, "🌙", some "theme-light"⟩)).classes =
      (⟨{"theme-light", "hero"}, false, "🌙",
        some "theme-light"⟩ : ThemeWorld).classes :=
  theme_toggle_twice_id _ (Or.inr ⟨rfl, by decide, by decide⟩)

/-- C8: At initialization with a persisted theme, the class attribute,
the accessibility-pressed flag, and the glyph are applied, and the
persistence store is not written: the stored value is unchanged. -/
theorem init_theme_no_store_write (w : ThemeWorld) (t : String)
    (h : w.store = some t) :
    (initStoredTheme w).store = w.store ∧
    (initStoredTheme w).classes = classesOfString t ∧
    (initStoredTheme w).ariaPressed = (t == "theme-dark") ∧
    (initStoredTheme w).glyph =
      (if t == "theme-dark" then "☀️" else "🌙") := by
  simp [initStoredTheme, h]

/-- Witness for C8 with a persisted dark theme. -/
theorem init_theme_no_store_write_witness :
    (initStoredTheme ⟨∅, false, "🌙", some "theme-dark"⟩).store =
      (⟨∅, false, "🌙", some "theme-dark"⟩ : ThemeWorld).store ∧
    (initStoredTheme ⟨∅, false, "🌙", some "theme-dark"⟩).classes =
      classesOfString "theme-dark" ∧
    (initStoredTheme ⟨∅, false, "🌙", some "theme-dark"⟩).ariaPressed =
      ("theme-dark" == "theme-dark") ∧
    (initStoredTheme ⟨∅, false, "🌙", some "theme-dark"⟩).glyph =
      (if "theme-dark" == "theme-dark" then "☀️" else "🌙") :=
  init_theme_no_store_write _ _ rfl

/-- C9 counterexample: after the window loses focus once and regains it,
the window holds focus but the pulse interval has been cleared and never
restarts, so the pulse no longer plays while the window holds focus. -/
theorem pulse_refocus_cex :
    (pulseRun pulseInit [WinEvent.blur, WinEvent.focus]).focused = true ∧
    (pulseRun pulseInit [WinEvent.blur, WinEvent.focus]).pulseTimer = none :=
  ⟨rfl, rfl⟩

/-- C9 amended: the 3.2 s pulse interval runs from startup and is
cleared by the first focus loss; no handler restarts it, so after any
sequence of focus events the interval is active exactly when no blur has
occurred. -/
theorem pulse_cleared_by_first_blur (evs : List WinEvent) :
    (pulseRun pulseInit evs).pulseTimer =
      if WinEvent.blur ∈ evs then none else some 3200 := by
  rw [pulseRun_timer]
  rfl

/-- C10: When a persisted theme exists, initialization overwrites the
body's class attribute with exactly the stored string, removing every
other class, whereas a toggle click preserves membership of every class
other than the two theme classes. -/
theorem init_overwrites_toggle_preserves (w : ThemeWorld) (t c : String)
    (hs : w.store = some t) (h1 : c ≠ "theme-dark")
    (h2 : c ≠ "theme-light") :
    (initStoredTheme w).classes = classesOfString t ∧
    (c ∈ (themeToggleClick w).classes ↔ c ∈ w.classes) := by
  constructor
  · simp [initStoredTheme, hs]
  · by_cases hd : "theme-dark" ∈ w.classes
    · simp [themeToggleClick, classListToggle, hd, h1, h2]
    · simp [themeToggleClick, classListToggle, hd, h1, h2]

/-- Witness for C10: initialization replaces an unrelated class set with
the stored token, and a toggle keeps the unrelated class `hero`. -/
theorem init_overwrites_toggle_preserves_witness :
    (initStoredTheme ⟨{"hero"}, false, "🌙", some "theme-dark"⟩).classes =
      classesOfString "theme-dark" ∧
    ("hero" ∈ (themeToggleClick
        ⟨{"hero"}, false, "🌙", some "theme-dark"⟩).classes ↔
      "hero" ∈ (⟨{"hero"}, false, "🌙",
        some "theme-dark"⟩ : ThemeWorld).classes) :=
  init_overwrites_toggle_preserves _ "theme-dark" "hero" rfl
    (by decide) (by decide)
